import Mathlib

/-!
Verification of the `@Pipe` decorator handler
(packages/compiler-cli/src/ngtsc/annotations/src/pipe.ts).

The handler is embedded shallowly: TypeScript expression nodes become an
inductive `Expr`, the external collaborators (constant evaluator, constructor
dependency resolver, reflection-metadata generator) become function-valued
fields of `PipeDecoratorHandler`, the pipe code emitter is a function
parameter of `compile`, and the scope registry becomes explicit state threaded
through `analyze`. Thrown `FatalDiagnosticError` values become the error side
of an `Except`.
-/

/-- Diagnostic categories raised by the handler (from ErrorCode in
ngtsc/diagnostics, restricted to the codes this file uses). -/
inductive ErrorCode where
  | DECORATOR_ON_ANONYMOUS_CLASS
  | DECORATOR_NOT_CALLED
  | DECORATOR_ARITY_WRONG
  | DECORATOR_ARG_NOT_LITERAL
  | PIPE_MISSING_NAME
  | VALUE_HAS_WRONG_TYPE
  deriving DecidableEq, Repr

/-- A fatal diagnostic: category plus human-readable message. -/
structure FatalDiagnosticError where
  code : ErrorCode
  message : String
  deriving DecidableEq, Repr

/-- TypeScript expression nodes, restricted to the shapes the handler
inspects: object literals (with their named fields), trivial wrappers
(parentheses and as-style assertions), and opaque leaves that only the
constant evaluator looks at. -/
inductive Expr where
  | strLit (s : String)
  | boolLit (b : Bool)
  | numLit (n : Int)
  | ident (nm : String)
  | objectLiteral (fields : List (String × Expr))
  | paren (e : Expr)
  | asExpr (e : Expr)

/-- Result values of the external constant evaluator
(PartialEvaluator.evaluate): string, boolean, number, structured object,
declaration reference, or unknown. -/
inductive ResolvedValue where
  | str (s : String)
  | bool (b : Bool)
  | num (n : Int)
  | obj
  | ref
  | unknown
  deriving DecidableEq, Repr

/-- A class-like declaration; the handler only reads its optional name. -/
structure ClassDecl where
  name : Option String
  deriving DecidableEq, Repr

/-- A decorator attached to a declaration: its name, a node reference used
in diagnostics, an origin marker (the module it was imported from), and the
optional argument list (none when the decorator was not invoked as a call). -/
structure Decorator where
  name : String
  node : Nat
  importOrigin : Option String
  args : Option (List Expr)

/-- Modelled from the spec: isAngularCore (annotations/src/util.ts, not under
src/) checks whether the explicit origin marker of the decorator resolves to
the trusted core module. -/
def isAngularCore (decorator : Decorator) : Bool :=
  decorator.importOrigin == some "@angular/core"

/-- Modelled from the spec: unwrapExpression (annotations/src/util.ts, not
under src/) strips trivial wrapping expressions, namely parenthesization and
as-style type assertions. -/
def unwrapExpression : Expr → Expr
  | .paren e => unwrapExpression e
  | .asExpr e => unwrapExpression e
  | e => e

/-- Modelled from the spec: reflectObjectLiteral (reflection, not under src/)
turns an object literal into a map from field name to expression node; this
is the lookup of that map, first matching key wins. -/
def literalGet (fields : List (String × Expr)) (key : String) : Option Expr :=
  (fields.find? (fun p => p.1 == key)).map Prod.snd

/-- A registered pipe fact: declaration reference plus evaluated pipe name
(the argument object of LocalModuleScopeRegistry.registerPipe). -/
structure PipeRegistration where
  ref : ClassDecl
  name : String
  deriving DecidableEq, Repr

/-- The symbol registry, recorded as the sequence of registration events. -/
abbrev Registry := List PipeRegistration

/-- Modelled from the spec: LocalModuleScopeRegistry.registerPipe (scope,
not under src/) records the registration fact; the internal storage is out
of scope, so the registry is the list of performed registrations. -/
def registerPipe (reg : Registry) (entry : PipeRegistration) : Registry :=
  reg ++ [entry]

/-- Dependency descriptors (R3DependencyMetadata) are opaque to this pass. -/
abbrev R3DependencyMetadata := Nat

/-- Auxiliary statements are opaque to this pass. -/
abbrev Statement := Nat

/-- WrappedNodeExpr around the class name identifier node. -/
structure WrappedNodeExpr where
  node : String
  deriving DecidableEq, Repr

/-- The validated pipe metadata record (R3PipeMetadata, the fields this
handler populates). -/
structure R3PipeMetadata where
  name : String
  type : WrappedNodeExpr
  pipeName : String
  deps : List R3DependencyMetadata
  pure : Bool
  deriving DecidableEq, Repr

/-- Analysis output of the handler: the metadata record plus the optional
reflection-metadata statement. -/
structure PipeHandlerData where
  meta : R3PipeMetadata
  metadataStmt : Option Statement
  deriving DecidableEq, Repr

/-- Output of the external pipe code emitter compilePipeFromMetadata:
initializer expression, generated statements, type expression. -/
structure R3PipeDef where
  expression : Nat
  statements : List Statement
  type : Nat
  deriving DecidableEq, Repr

/-- The compiled artifact handed back to the driver. -/
structure CompileResult where
  name : String
  initializer : Nat
  statements : List Statement
  type : Nat
  deriving DecidableEq, Repr

/-- A successful detection: the triggering node and the decorator itself. -/
structure DetectResult where
  trigger : Nat
  metadata : Decorator

/-- Handler precedence values. -/
inductive HandlerPrecedence where
  | PRIMARY
  | SHARED
  | WEAK
  deriving DecidableEq, Repr

/-- The pipe decorator handler. Its constructor arguments become fields: the
constant evaluator, and (folding in the reflector they consume) the external
constructor-dependency resolver and the reflection-metadata generator, plus
the isCore flag. -/
structure PipeDecoratorHandler where
  evaluator : Expr → ResolvedValue
  getValidConstructorDependencies :
    ClassDecl → Except FatalDiagnosticError (List R3DependencyMetadata)
  generateSetClassMetadataCall : ClassDecl → Option Statement
  isCore : Bool

/-- The handler precedence is PRIMARY. -/
def PipeDecoratorHandler.precedence (_ : PipeDecoratorHandler) : HandlerPrecedence :=
  HandlerPrecedence.PRIMARY

/-- The selection predicate of detect: decorator named Pipe whose origin is
trusted (handler in core mode, or origin marker resolves to the core). -/
def pipePredicate (isCore : Bool) (decorator : Decorator) : Bool :=
  decorator.name == "Pipe" && (isCore || isAngularCore decorator)

/-- PipeDecoratorHandler.detect (pipe.ts lines 34 to 48). -/
def PipeDecoratorHandler.detect (h : PipeDecoratorHandler) (_ : ClassDecl)
    (decorators : Option (List Decorator)) : Option DetectResult :=
  match decorators with
  | none => none
  | some ds =>
    match ds.find? (pipePredicate h.isCore) with
    | some decorator => some { trigger := decorator.node, metadata := decorator }
    | none => none

/-- PipeDecoratorHandler.analyze (pipe.ts lines 50 to 107). Thrown
diagnostics become Except.error; the registry is threaded as state so that
the write performed before a later failure is observable. -/
def PipeDecoratorHandler.analyze (h : PipeDecoratorHandler) (clazz : ClassDecl)
    (decorator : Decorator) (reg : Registry) :
    Except FatalDiagnosticError PipeHandlerData × Registry :=
  match clazz.name with
  | none =>
    (.error ⟨.DECORATOR_ON_ANONYMOUS_CLASS, "@Pipes must have names"⟩, reg)
  | some name =>
    let type : WrappedNodeExpr := ⟨name⟩
    match decorator.args with
    | none => (.error ⟨.DECORATOR_NOT_CALLED, "@Pipe must be called"⟩, reg)
    | some args =>
      match args with
      | [arg] =>
        match unwrapExpression arg with
        | .objectLiteral pipe =>
          match literalGet pipe "name" with
          | none =>
            (.error ⟨.PIPE_MISSING_NAME, "@Pipe decorator is missing name field"⟩, reg)
          | some pipeNameExpr =>
            match h.evaluator pipeNameExpr with
            | .str pipeName =>
              let reg' := registerPipe reg { ref := clazz, name := pipeName }
              let finish : Bool → Except FatalDiagnosticError PipeHandlerData × Registry :=
                fun pureFlag =>
                  match h.getValidConstructorDependencies clazz with
                  | .error e => (.error e, reg')
                  | .ok deps =>
                    (.ok { meta := { name := name, type := type, pipeName := pipeName,
                                     deps := deps, pure := pureFlag },
                           metadataStmt := h.generateSetClassMetadataCall clazz }, reg')
              match literalGet pipe "pure" with
              | none => finish true
              | some expr =>
                match h.evaluator expr with
                | .bool b => finish b
                | _ =>
                  (.error ⟨.VALUE_HAS_WRONG_TYPE, "@Pipe.pure must be a boolean"⟩, reg')
            | _ =>
              (.error ⟨.VALUE_HAS_WRONG_TYPE, "@Pipe.name must be a string"⟩, reg)
        | _ =>
          (.error ⟨.DECORATOR_ARG_NOT_LITERAL, "@Pipe must have a literal argument"⟩, reg)
      | _ =>
        (.error ⟨.DECORATOR_ARITY_WRONG, "@Pipe must have exactly one argument"⟩, reg)

/-- PipeDecoratorHandler.compile (pipe.ts lines 109 to 120). The external
emitter compilePipeFromMetadata is a parameter; the metadata statement, when
present, is pushed after the emitted statements. -/
def PipeDecoratorHandler.compile
    (compilePipeFromMetadata : R3PipeMetadata → R3PipeDef)
    (_ : ClassDecl) (analysis : PipeHandlerData) : CompileResult :=
  let res := compilePipeFromMetadata analysis.meta
  let statements :=
    match analysis.metadataStmt with
    | some s => res.statements ++ [s]
    | none => res.statements
  { name := "ngPipeDef", initializer := res.expression,
    statements := statements, type := res.type }

/-- A concrete constant evaluator used in the end-to-end scenarios: literal
leaves evaluate to the corresponding value, everything else is unknown. -/
def litEvaluator : Expr → ResolvedValue
  | .strLit s => .str s
  | .boolLit b => .bool b
  | .numLit n => .num n
  | _ => .unknown

/-- C1: for the declaration named UpperCasePipe decorated with
Pipe({ name: uppercase }), with empty dependency resolution, analyze
succeeds with the record
(name UpperCasePipe, pipeName uppercase, pure true, deps empty), and compile
on that record yields the artifact named ngPipeDef whose initializer is the
expression produced by the emitter (non-null by construction). -/
theorem pipe_scenario_uppercase :
    PipeDecoratorHandler.analyze
        ⟨litEvaluator, fun _ => .ok [], fun _ => none, false⟩
        ⟨some "UpperCasePipe"⟩
        ⟨"Pipe", 0, some "@angular/core",
          some [.objectLiteral [("name", .strLit "uppercase")]]⟩ [] =
      (.ok { meta := { name := "UpperCasePipe", type := ⟨"UpperCasePipe"⟩,
                       pipeName := "uppercase", deps := [], pure := true },
             metadataStmt := none },
       [{ ref := ⟨some "UpperCasePipe"⟩, name := "uppercase" }]) ∧
    PipeDecoratorHandler.compile (fun _ => ⟨1, [], 0⟩) ⟨some "UpperCasePipe"⟩
        { meta := { name := "UpperCasePipe", type := ⟨"UpperCasePipe"⟩,
                    pipeName := "uppercase", deps := [], pure := true },
          metadataStmt := none } =
      { name := "ngPipeDef", initializer := 1, statements := [], type := 0 } :=
  ⟨rfl, rfl⟩

/-- C3: a declaration with no name is rejected with
DECORATOR_ON_ANONYMOUS_CLASS and no registry write is performed. -/
theorem analyze_anonymous_rejected (h : PipeDecoratorHandler)
    (decorator : Decorator) (reg : Registry) :
    h.analyze ⟨none⟩ decorator reg =
      (.error ⟨.DECORATOR_ON_ANONYMOUS_CLASS, "@Pipes must have names"⟩, reg) :=
  rfl

/-- C4: on a named declaration, a Pipe decorator with no argument list fails
with DECORATOR_NOT_CALLED, and one whose argument list does not have exactly
one element fails with DECORATOR_ARITY_WRONG; in both cases the result is the
same for every constant evaluator (no evaluation occurs) and the registry is
untouched. -/
theorem analyze_not_called_or_wrong_arity
    (gd : ClassDecl → Except FatalDiagnosticError (List R3DependencyMetadata))
    (gm : ClassDecl → Option Statement) (core : Bool) (nm : String)
    (dn : String) (dnode : Nat) (dio : Option String) (reg : Registry) :
    (∀ ev : Expr → ResolvedValue,
      PipeDecoratorHandler.analyze ⟨ev, gd, gm, core⟩ ⟨some nm⟩
          ⟨dn, dnode, dio, none⟩ reg =
        (.error ⟨.DECORATOR_NOT_CALLED, "@Pipe must be called"⟩, reg)) ∧
    (∀ (ev : Expr → ResolvedValue) (args : List Expr), args.length ≠ 1 →
      PipeDecoratorHandler.analyze ⟨ev, gd, gm, core⟩ ⟨some nm⟩
          ⟨dn, dnode, dio, some args⟩ reg =
        (.error ⟨.DECORATOR_ARITY_WRONG, "@Pipe must have exactly one argument"⟩,
         reg)) := by
  constructor
  · intro ev
    rfl
  · intro ev args hlen
    match args with
    | [] => rfl
    | [a] => exact absurd rfl hlen
    | a :: b :: t => rfl

/-- C4 witness: concrete uninvoked decorator and concrete two-argument
decorator, at a concrete handler. -/
theorem analyze_not_called_or_wrong_arity_witness :
    PipeDecoratorHandler.analyze
        ⟨litEvaluator, fun _ => .ok [], fun _ => none, false⟩ ⟨some "X"⟩
        ⟨"Pipe", 3, none, none⟩ [] =
      (.error ⟨.DECORATOR_NOT_CALLED, "@Pipe must be called"⟩, []) ∧
    PipeDecoratorHandler.analyze
        ⟨litEvaluator, fun _ => .ok [], fun _ => none, false⟩ ⟨some "X"⟩
        ⟨"Pipe", 3, none, some [.strLit "a", .strLit "b"]⟩ [] =
      (.error ⟨.DECORATOR_ARITY_WRONG, "@Pipe must have exactly one argument"⟩,
       []) :=
  ⟨(analyze_not_called_or_wrong_arity (fun _ => .ok []) (fun _ => none) false
      "X" "Pipe" 3 none []).1 litEvaluator,
   (analyze_not_called_or_wrong_arity (fun _ => .ok []) (fun _ => none) false
      "X" "Pipe" 3 none []).2 litEvaluator [.strLit "a", .strLit "b"]
      (by decide)⟩

/-- C8: compile is total and performs no validation: for every emitter, node
and record it returns the fixed name ngPipeDef, the emitted initializer and
type, and its statement list is exactly the emitted statements followed by
the metadata statement when that statement is present, and exactly the
emitted statements when it is absent. -/
theorem compile_appends_metadata_statement
    (emit : R3PipeMetadata → R3PipeDef) (node : ClassDecl)
    (analysis : PipeHandlerData) :
    (PipeDecoratorHandler.compile emit node analysis).name = "ngPipeDef" ∧
    (PipeDecoratorHandler.compile emit node analysis).initializer =
      (emit analysis.meta).expression ∧
    (PipeDecoratorHandler.compile emit node analysis).type =
      (emit analysis.meta).type ∧
    (∀ s, analysis.metadataStmt = some s →
      (PipeDecoratorHandler.compile emit node analysis).statements =
        (emit analysis.meta).statements ++ [s]) ∧
    (analysis.metadataStmt = none →
      (PipeDecoratorHandler.compile emit node analysis).statements =
        (emit analysis.meta).statements) := by
  refine ⟨rfl, rfl, rfl, ?_, ?_⟩
  · intro s hs
    simp [PipeDecoratorHandler.compile, hs]
  · intro hs
    simp [PipeDecoratorHandler.compile, hs]

/-- C8 witness: a concrete record with a present metadata statement, and one
with an absent metadata statement, at a concrete emitter. -/
theorem compile_appends_metadata_statement_witness :
    (PipeDecoratorHandler.compile (fun _ => ⟨2, [10, 11], 5⟩) ⟨some "X"⟩
        { meta := { name := "X", type := ⟨"X"⟩, pipeName := "x",
                    deps := [], pure := true },
          metadataStmt := some 7 }).statements = [10, 11] ++ [7] ∧
    (PipeDecoratorHandler.compile (fun _ => ⟨2, [10, 11], 5⟩) ⟨some "X"⟩
        { meta := { name := "X", type := ⟨"X"⟩, pipeName := "x",
                    deps := [], pure := true },
          metadataStmt := none }).statements = [10, 11] :=
  ⟨(compile_appends_metadata_statement (fun _ => ⟨2, [10, 11], 5⟩) ⟨some "X"⟩
      { meta := { name := "X", type := ⟨"X"⟩, pipeName := "x",
                  deps := [], pure := true },
        metadataStmt := some 7 }).2.2.2.1 7 rfl,
   (compile_appends_metadata_statement (fun _ => ⟨2, [10, 11], 5⟩) ⟨some "X"⟩
      { meta := { name := "X", type := ⟨"X"⟩, pipeName := "x",
                  deps := [], pure := true },
        metadataStmt := none }).2.2.2.2 rfl⟩

/-- C10: compile never reads its class-declaration parameter: for every
emitter, any two nodes and any record, the artifacts coincide. -/
theorem compile_ignores_class_node (emit : R3PipeMetadata → R3PipeDef)
    (n1 n2 : ClassDecl) (analysis : PipeHandlerData) :
    PipeDecoratorHandler.compile emit n1 analysis =
      PipeDecoratorHandler.compile emit n2 analysis :=
  rfl

/-- C2: once the name field passes the string check, the registration is
performed unconditionally, whatever the pure field and the dependency
resolver later do (the final registry always contains the new entry); and
when the pure field is present but evaluates to a non-boolean, analyze fails
with VALUE_HAS_WRONG_TYPE while the registration stays in place. -/
theorem analyze_registers_before_pure
    (ev : Expr → ResolvedValue)
    (gd : ClassDecl → Except FatalDiagnosticError (List R3DependencyMetadata))
    (gm : ClassDecl → Option Statement) (core : Bool) (nm dn : String)
    (dnode : Nat) (dio : Option String) (reg : Registry) (arg : Expr)
    (pipe : List (String × Expr)) (pipeNameExpr : Expr) (s : String)
    (hu : unwrapExpression arg = .objectLiteral pipe)
    (hget : literalGet pipe "name" = some pipeNameExpr)
    (hev : ev pipeNameExpr = .str s) :
    (PipeDecoratorHandler.analyze ⟨ev, gd, gm, core⟩ ⟨some nm⟩
        ⟨dn, dnode, dio, some [arg]⟩ reg).2 =
      registerPipe reg ⟨⟨some nm⟩, s⟩ ∧
    (∀ pe, literalGet pipe "pure" = some pe → (∀ b, ev pe ≠ .bool b) →
      (PipeDecoratorHandler.analyze ⟨ev, gd, gm, core⟩ ⟨some nm⟩
          ⟨dn, dnode, dio, some [arg]⟩ reg).1 =
        .error ⟨.VALUE_HAS_WRONG_TYPE, "@Pipe.pure must be a boolean"⟩) := by
  constructor
  · cases hp : literalGet pipe "pure" with
    | none =>
      cases hd : gd ⟨some nm⟩ with
      | error e =>
        simp [PipeDecoratorHandler.analyze, hu, hget, hev, hp, hd, registerPipe]
      | ok deps =>
        simp [PipeDecoratorHandler.analyze, hu, hget, hev, hp, hd, registerPipe]
    | some pe =>
      cases hb : ev pe with
      | bool b =>
        cases hd : gd ⟨some nm⟩ with
        | error e =>
          simp [PipeDecoratorHandler.analyze, hu, hget, hev, hp, hb, hd,
                registerPipe]
        | ok deps =>
          simp [PipeDecoratorHandler.analyze, hu, hget, hev, hp, hb, hd,
                registerPipe]
      | str s2 =>
        simp [PipeDecoratorHandler.analyze, hu, hget, hev, hp, hb, registerPipe]
      | num n =>
        simp [PipeDecoratorHandler.analyze, hu, hget, hev, hp, hb, registerPipe]
      | obj =>
        simp [PipeDecoratorHandler.analyze, hu, hget, hev, hp, hb, registerPipe]
      | ref =>
        simp [PipeDecoratorHandler.analyze, hu, hget, hev, hp, hb, registerPipe]
      | unknown =>
        simp [PipeDecoratorHandler.analyze, hu, hget, hev, hp, hb, registerPipe]
  · intro pe hp hnb
    cases hb : ev pe with
    | bool b => exact absurd hb (hnb b)
    | str s2 => simp [PipeDecoratorHandler.analyze, hu, hget, hev, hp, hb]
    | num n => simp [PipeDecoratorHandler.analyze, hu, hget, hev, hp, hb]
    | obj => simp [PipeDecoratorHandler.analyze, hu, hget, hev, hp, hb]
    | ref => simp [PipeDecoratorHandler.analyze, hu, hget, hev, hp, hb]
    | unknown => simp [PipeDecoratorHandler.analyze, hu, hget, hev, hp, hb]

/-- C2 witness: a concrete literal whose pure field is the number 3; the
registration is performed and the failure is VALUE_HAS_WRONG_TYPE. -/
theorem analyze_registers_before_pure_witness :
    (PipeDecoratorHandler.analyze
        ⟨litEvaluator, fun _ => .ok [], fun _ => none, false⟩ ⟨some "X"⟩
        ⟨"Pipe", 0, none,
          some [.objectLiteral [("name", .strLit "p"), ("pure", .numLit 3)]]⟩
        []).2 = registerPipe [] ⟨⟨some "X"⟩, "p"⟩ ∧
    (PipeDecoratorHandler.analyze
        ⟨litEvaluator, fun _ => .ok [], fun _ => none, false⟩ ⟨some "X"⟩
        ⟨"Pipe", 0, none,
          some [.objectLiteral [("name", .strLit "p"), ("pure", .numLit 3)]]⟩
        []).1 = .error ⟨.VALUE_HAS_WRONG_TYPE, "@Pipe.pure must be a boolean"⟩ := by
  have h := analyze_registers_before_pure litEvaluator (fun _ => .ok [])
    (fun _ => none) false "X" "Pipe" 0 none []
    (.objectLiteral [("name", .strLit "p"), ("pure", .numLit 3)])
    [("name", .strLit "p"), ("pure", .numLit 3)] (.strLit "p") "p" rfl rfl rfl
  exact ⟨h.1, h.2 (.numLit 3) rfl (by decide)⟩

/-- C5: a single argument that does not unwrap to an object literal is
rejected with DECORATOR_ARG_NOT_LITERAL, and an object literal lacking the
name field is rejected with PIPE_MISSING_NAME; both without registry write. -/
theorem analyze_argument_literal_checks
    (ev : Expr → ResolvedValue)
    (gd : ClassDecl → Except FatalDiagnosticError (List R3DependencyMetadata))
    (gm : ClassDecl → Option Statement) (core : Bool) (nm dn : String)
    (dnode : Nat) (dio : Option String) (reg : Registry) (arg : Expr) :
    ((∀ fields, unwrapExpression arg ≠ .objectLiteral fields) →
      PipeDecoratorHandler.analyze ⟨ev, gd, gm, core⟩ ⟨some nm⟩
          ⟨dn, dnode, dio, some [arg]⟩ reg =
        (.error ⟨.DECORATOR_ARG_NOT_LITERAL, "@Pipe must have a literal argument"⟩,
         reg)) ∧
    (∀ pipe, unwrapExpression arg = .objectLiteral pipe →
      literalGet pipe "name" = none →
      PipeDecoratorHandler.analyze ⟨ev, gd, gm, core⟩ ⟨some nm⟩
          ⟨dn, dnode, dio, some [arg]⟩ reg =
        (.error ⟨.PIPE_MISSING_NAME, "@Pipe decorator is missing name field"⟩,
         reg)) := by
  constructor
  · intro hnl
    cases hu : unwrapExpression arg with
    | objectLiteral fields => exact absurd hu (hnl fields)
    | strLit s => simp [PipeDecoratorHandler.analyze, hu]
    | boolLit b => simp [PipeDecoratorHandler.analyze, hu]
    | numLit n => simp [PipeDecoratorHandler.analyze, hu]
    | ident x => simp [PipeDecoratorHandler.analyze, hu]
    | paren e => simp [PipeDecoratorHandler.analyze, hu]
    | asExpr e => simp [PipeDecoratorHandler.analyze, hu]
  · intro pipe hu hnone
    simp [PipeDecoratorHandler.analyze, hu, hnone]

/-- C5 witness: a variable reference as argument, and a literal with only a
pure field, at a concrete handler. -/
theorem analyze_argument_literal_checks_witness :
    PipeDecoratorHandler.analyze
        ⟨litEvaluator, fun _ => .ok [], fun _ => none, false⟩ ⟨some "X"⟩
        ⟨"Pipe", 0, none, some [.ident "v"]⟩ [] =
      (.error ⟨.DECORATOR_ARG_NOT_LITERAL, "@Pipe must have a literal argument"⟩,
       []) ∧
    PipeDecoratorHandler.analyze
        ⟨litEvaluator, fun _ => .ok [], fun _ => none, false⟩ ⟨some "X"⟩
        ⟨"Pipe", 0, none, some [.objectLiteral [("pure", .boolLit true)]]⟩ [] =
      (.error ⟨.PIPE_MISSING_NAME, "@Pipe decorator is missing name field"⟩,
       []) :=
  ⟨(analyze_argument_literal_checks litEvaluator (fun _ => .ok [])
      (fun _ => none) false "X" "Pipe" 0 none [] (.ident "v")).1
      (fun _ h => Expr.noConfusion h),
   (analyze_argument_literal_checks litEvaluator (fun _ => .ok [])
      (fun _ => none) false "X" "Pipe" 0 none []
      (.objectLiteral [("pure", .boolLit true)])).2
      [("pure", .boolLit true)] rfl rfl⟩

/-- C6: a name field that evaluates to a non-string fails with
VALUE_HAS_WRONG_TYPE (registry untouched), and a pure field that evaluates
to a non-boolean fails with VALUE_HAS_WRONG_TYPE. -/
theorem analyze_field_type_checks
    (ev : Expr → ResolvedValue)
    (gd : ClassDecl → Except FatalDiagnosticError (List R3DependencyMetadata))
    (gm : ClassDecl → Option Statement) (core : Bool) (nm dn : String)
    (dnode : Nat) (dio : Option String) (reg : Registry) (arg : Expr)
    (pipe : List (String × Expr)) (pipeNameExpr : Expr)
    (hu : unwrapExpression arg = .objectLiteral pipe)
    (hget : literalGet pipe "name" = some pipeNameExpr) :
    ((∀ s, ev pipeNameExpr ≠ .str s) →
      PipeDecoratorHandler.analyze ⟨ev, gd, gm, core⟩ ⟨some nm⟩
          ⟨dn, dnode, dio, some [arg]⟩ reg =
        (.error ⟨.VALUE_HAS_WRONG_TYPE, "@Pipe.name must be a string"⟩, reg)) ∧
    (∀ s pe, ev pipeNameExpr = .str s → literalGet pipe "pure" = some pe →
      (∀ b, ev pe ≠ .bool b) →
      (PipeDecoratorHandler.analyze ⟨ev, gd, gm, core⟩ ⟨some nm⟩
          ⟨dn, dnode, dio, some [arg]⟩ reg).1 =
        .error ⟨.VALUE_HAS_WRONG_TYPE, "@Pipe.pure must be a boolean"⟩) := by
  constructor
  · intro hns
    cases hb : ev pipeNameExpr with
    | str s => exact absurd hb (hns s)
    | bool b => simp [PipeDecoratorHandler.analyze, hu, hget, hb]
    | num n => simp [PipeDecoratorHandler.analyze, hu, hget, hb]
    | obj => simp [PipeDecoratorHandler.analyze, hu, hget, hb]
    | ref => simp [PipeDecoratorHandler.analyze, hu, hget, hb]
    | unknown => simp [PipeDecoratorHandler.analyze, hu, hget, hb]
  · intro s pe hev hp hnb
    cases hb : ev pe with
    | bool b => exact absurd hb (hnb b)
    | str s2 => simp [PipeDecoratorHandler.analyze, hu, hget, hev, hp, hb]
    | num n => simp [PipeDecoratorHandler.analyze, hu, hget, hev, hp, hb]
    | obj => simp [PipeDecoratorHandler.analyze, hu, hget, hev, hp, hb]
    | ref => simp [PipeDecoratorHandler.analyze, hu, hget, hev, hp, hb]
    | unknown => simp [PipeDecoratorHandler.analyze, hu, hget, hev, hp, hb]

/-- C6 witness: a name field that is the number 1, and a literal whose name
is a string but whose pure field is the number 3. -/
theorem analyze_field_type_checks_witness :
    PipeDecoratorHandler.analyze
        ⟨litEvaluator, fun _ => .ok [], fun _ => none, false⟩ ⟨some "X"⟩
        ⟨"Pipe", 0, none, some [.objectLiteral [("name", .numLit 1)]]⟩ [] =
      (.error ⟨.VALUE_HAS_WRONG_TYPE, "@Pipe.name must be a string"⟩, []) ∧
    (PipeDecoratorHandler.analyze
        ⟨litEvaluator, fun _ => .ok [], fun _ => none, false⟩ ⟨some "Y"⟩
        ⟨"Pipe", 1, none,
          some [.objectLiteral [("name", .strLit "y"), ("pure", .numLit 3)]]⟩
        []).1 = .error ⟨.VALUE_HAS_WRONG_TYPE, "@Pipe.pure must be a boolean"⟩ :=
  ⟨(analyze_field_type_checks litEvaluator (fun _ => .ok []) (fun _ => none)
      false "X" "Pipe" 0 none [] (.objectLiteral [("name", .numLit 1)])
      [("name", .numLit 1)] (.numLit 1) rfl rfl).1
      (fun s h => ResolvedValue.noConfusion h),
   (analyze_field_type_checks litEvaluator (fun _ => .ok []) (fun _ => none)
      false "Y" "Pipe" 1 none []
      (.objectLiteral [("name", .strLit "y"), ("pure", .numLit 3)])
      [("name", .strLit "y"), ("pure", .numLit 3)] (.strLit "y") rfl rfl).2
      "y" (.numLit 3) rfl rfl (by decide)⟩

/-- C7: when the name check and dependency resolution succeed, the record
purity flag is true when the pure field is absent, and is the evaluated
boolean when the pure field is present and evaluates to a boolean. -/
theorem analyze_pure_default_and_override
    (ev : Expr → ResolvedValue)
    (gd : ClassDecl → Except FatalDiagnosticError (List R3DependencyMetadata))
    (gm : ClassDecl → Option Statement) (core : Bool) (nm dn : String)
    (dnode : Nat) (dio : Option String) (reg : Registry) (arg : Expr)
    (pipe : List (String × Expr)) (pipeNameExpr : Expr) (s : String)
    (deps : List R3DependencyMetadata)
    (hu : unwrapExpression arg = .objectLiteral pipe)
    (hget : literalGet pipe "name" = some pipeNameExpr)
    (hev : ev pipeNameExpr = .str s)
    (hdeps : gd ⟨some nm⟩ = .ok deps) :
    (literalGet pipe "pure" = none →
      (PipeDecoratorHandler.analyze ⟨ev, gd, gm, core⟩ ⟨some nm⟩
          ⟨dn, dnode, dio, some [arg]⟩ reg).1 =
        .ok ⟨⟨nm, ⟨nm⟩, s, deps, true⟩, gm ⟨some nm⟩⟩) ∧
    (∀ pe b, literalGet pipe "pure" = some pe → ev pe = .bool b →
      (PipeDecoratorHandler.analyze ⟨ev, gd, gm, core⟩ ⟨some nm⟩
          ⟨dn, dnode, dio, some [arg]⟩ reg).1 =
        .ok ⟨⟨nm, ⟨nm⟩, s, deps, b⟩, gm ⟨some nm⟩⟩) := by
  constructor
  · intro hp
    simp [PipeDecoratorHandler.analyze, hu, hget, hev, hp, hdeps]
  · intro pe b hp hb
    simp [PipeDecoratorHandler.analyze, hu, hget, hev, hp, hb, hdeps]

/-- C7 witness: the argument with name uppercase and pure false yields the
record with purity flag false. -/
theorem analyze_pure_default_and_override_witness :
    (PipeDecoratorHandler.analyze
        ⟨litEvaluator, fun _ => .ok [], fun _ => none, false⟩
        ⟨some "UpperCasePipe"⟩
        ⟨"Pipe", 0, some "@angular/core",
          some [.objectLiteral
            [("name", .strLit "uppercase"), ("pure", .boolLit false)]]⟩
        []).1 =
      .ok ⟨⟨"UpperCasePipe", ⟨"UpperCasePipe"⟩, "uppercase", [], false⟩, none⟩ :=
  (analyze_pure_default_and_override litEvaluator (fun _ => .ok [])
      (fun _ => none) false "UpperCasePipe" "Pipe" 0 (some "@angular/core") []
      (.objectLiteral [("name", .strLit "uppercase"), ("pure", .boolLit false)])
      [("name", .strLit "uppercase"), ("pure", .boolLit false)]
      (.strLit "uppercase") "uppercase" [] rfl rfl rfl rfl).2
    (.boolLit false) false rfl rfl

/-- A successful find? splits the list at the first element satisfying the
predicate: everything before it fails the predicate. -/
theorem find?_split {α : Type} (p : α → Bool) :
    ∀ (l : List α) (a : α), l.find? p = some a →
      ∃ l₁ l₂, l = l₁ ++ a :: l₂ ∧ p a = true ∧ ∀ x ∈ l₁, p x = false := by
  intro l
  induction l with
  | nil =>
    intro a h
    exact absurd h (by simp)
  | cons b t ih =>
    intro a h
    by_cases hb : p b = true
    · have hba : b = a := by simpa [List.find?, hb] using h
      subst hba
      exact ⟨[], t, rfl, hb, by intro x hx; exact absurd hx (List.not_mem_nil x)⟩
    · rw [Bool.not_eq_true] at hb
      simp only [List.find?, hb] at h
      obtain ⟨l₁, l₂, heq, hpa, hall⟩ := ih a h
      refine ⟨b :: l₁, l₂, by rw [heq]; rfl, hpa, ?_⟩
      intro x hx
      rcases List.mem_cons.mp hx with hxb | hx2
      · rw [hxb]; exact hb
      · exact hall x hx2

/-- A failing find? means every element fails the predicate. -/
theorem find?_none_all {α : Type} (p : α → Bool) :
    ∀ l : List α, l.find? p = none → ∀ x ∈ l, p x = false := by
  intro l
  induction l with
  | nil =>
    intro _ x hx
    exact absurd hx (List.not_mem_nil x)
  | cons b t ih =>
    intro h x hx
    by_cases hb : p b = true
    · simp [List.find?, hb] at h
    · rw [Bool.not_eq_true] at hb
      simp only [List.find?, hb] at h
      rcases List.mem_cons.mp hx with hxb | hx2
      · rw [hxb]; exact hb
      · exact ih h x hx2

/-- C9: detect returns none on an absent decorator list; otherwise it
selects the first decorator named Pipe satisfying the origin condition,
returning its node as trigger and the decorator as metadata; when it returns
none, no decorator in the list satisfies the selection predicate. It is a
pure total function, so it never fails and has no side effects. -/
theorem detect_first_matching_decorator (h : PipeDecoratorHandler)
    (node : ClassDecl) (ds : List Decorator) :
    h.detect node none = none ∧
    (∀ r, h.detect node (some ds) = some r →
      r.trigger = r.metadata.node ∧
      pipePredicate h.isCore r.metadata = true ∧
      ∃ l₁ l₂, ds = l₁ ++ r.metadata :: l₂ ∧
        ∀ d ∈ l₁, pipePredicate h.isCore d = false) ∧
    (h.detect node (some ds) = none →
      ∀ d ∈ ds, pipePredicate h.isCore d = false) := by
  refine ⟨rfl, ?_, ?_⟩
  · intro r hr
    cases hf : ds.find? (pipePredicate h.isCore) with
    | none => simp [PipeDecoratorHandler.detect, hf] at hr
    | some d =>
      simp only [PipeDecoratorHandler.detect, hf, Option.some.injEq] at hr
      subst hr
      obtain ⟨l₁, l₂, heq, hp, hall⟩ := find?_split _ ds d hf
      exact ⟨rfl, hp, l₁, l₂, heq, hall⟩
  · intro hn d hd
    cases hf : ds.find? (pipePredicate h.isCore) with
    | some d2 => simp [PipeDecoratorHandler.detect, hf] at hn
    | none => exact find?_none_all _ ds hf d hd

/-- C9 witness: in a two-decorator list whose first element is not named
Pipe, detect selects the second, which satisfies the predicate and is
preceded only by non-matching decorators. -/
theorem detect_first_matching_decorator_witness :
    pipePredicate false ⟨"Pipe", 2, some "@angular/core", some []⟩ = true ∧
    ∃ l₁ l₂,
      [(⟨"Other", 1, none, none⟩ : Decorator),
       ⟨"Pipe", 2, some "@angular/core", some []⟩] =
        l₁ ++ (⟨"Pipe", 2, some "@angular/core", some []⟩ : Decorator) :: l₂ ∧
      ∀ d ∈ l₁, pipePredicate false d = false := by
  have h := (detect_first_matching_decorator
      ⟨litEvaluator, fun _ => .ok [], fun _ => none, false⟩ ⟨some "X"⟩
      [⟨"Other", 1, none, none⟩,
       ⟨"Pipe", 2, some "@angular/core", some []⟩]).2.1
      ⟨2, ⟨"Pipe", 2, some "@angular/core", some []⟩⟩ rfl
  exact ⟨h.2.1, h.2.2⟩
